import Mathlib

/-!
Shallow embedding of the langflow deploy UI fragment:
  - src/frontend/src/components/core/flowToolbarComponent/components/deploy-button.tsx
    (`DeployButton.handleDeployClick`)
  - src/frontend/src/components/core/flowToolbarComponent (FlowToolbarOptions,
    the toolbar's direct deploy button, `handleDeployClick`)
  - src/frontend/src/modals/DeployModal/index.tsx (`DeployModal`:
    `handleDownloadApp`, `handleContainerize`, `handleDeploy`, the code-sample
    templates, `dockerRunCommand`, `generateDeploymentScript`)
  - src/frontend/src/services/api.ts (axios instance with baseURL "/api/v1")

Handlers are modelled as pure functions from their inputs (the flow id, the
captured component state, and — for the containerize call — the outcome of the
awaited HTTP request) to the ordered list of effects they perform: every
`setX(...)` state write, every alert-store write, every request issued, every
`window.open`, every `console.log`.  Applying the effect list to a world state
reproduces the React state after the handler ran.
-/

set_option maxRecDepth 100000

namespace Langflow

/-- JavaScript-style substring prefix test on character lists
(`needle.charsPrefix hay`): does `hay` start with `needle`? -/
def charsPrefix : List Char → List Char → Bool
  | [], _ => true
  | _ :: _, [] => false
  | a :: as, b :: bs => a == b && charsPrefix as bs

/-- Does `hay` contain `needle` as a contiguous sublist? -/
def charsContain : List Char → List Char → Bool
  | [], needle => charsPrefix needle []
  | h :: t, needle => charsPrefix needle (h :: t) || charsContain t needle

/-- JavaScript `String.prototype.includes`: `jsIncludes s sub` is
`s.includes(sub)`. -/
def jsIncludes (s sub : String) : Bool :=
  charsContain s.toList sub.toList

/-- Optional-chained `includes`: JS `x?.includes(sub)` where `x` may be
absent (absent gives `undefined`, which is falsy). -/
def jsIncludesOpt (s : Option String) (sub : String) : Bool :=
  match s with
  | some str => jsIncludes str sub
  | none => false

/-- JS truthiness of a possibly-absent string: `undefined`, `null` and the
empty string are falsy. -/
def jsTruthy : Option String → Bool
  | some s => s ≠ ""
  | none => false

/-- Template interpolation of a `string | null` value: JS renders `null` as
the text "null". -/
def jsNullStr : Option String → String
  | some s => s
  | none => "null"

/-- Template interpolation of a possibly-`undefined` value: JS renders
`undefined` as the text "undefined". -/
def jsUndefStr : Option String → String
  | some s => s
  | none => "undefined"

/-- A notification written to the shared alert store
(`setErrorData` / `setSuccessData` payloads `{title, list}`). -/
structure Notification where
  title : String
  list : List String
deriving DecidableEq, Repr

/-- `response.data.container_info` of the containerize endpoint. -/
structure ContainerInfoData where
  api_url : Option String
  container_name : Option String
deriving DecidableEq, Repr

/-- `response.data` of the containerize endpoint:
`{image_name, message?, container_info?}`. -/
structure ContainerResponseData where
  image_name : Option String
  message : Option String
  container_info : Option ContainerInfoData
deriving DecidableEq, Repr

/-- Settled outcome of the awaited `api.post(".../containerize", ...)`:
either the promise resolved (with `response.data`, which the code tests for
truthiness, hence the `Option`), or it rejected with an axios-style error
carrying `error.response.data.detail` and `error.message`. -/
inductive ContainerizeOutcome where
  | success (data : Option ContainerResponseData)
  | failure (detail : Option String) (message : Option String)
deriving DecidableEq, Repr

/-- The `deploymentType` useState: `"download" | "container"`. -/
inductive DeploymentType where
  | download
  | container
deriving DecidableEq, Repr

/-- The `DeployModal` component's local `useState` fields. -/
structure ModalState where
  isDeploying : Bool
  deployedUrl : Option String
  docsUrl : Option String
  activeTab : String
  deploymentType : DeploymentType
  port : Nat
  autoDeploy : Bool
  containerInfo : Option ContainerResponseData
deriving DecidableEq, Repr

/-- Initial values of the `useState` hooks in `DeployModal`. -/
def initialModalState : ModalState where
  isDeploying := false
  deployedUrl := none
  docsUrl := none
  activeTab := "python"
  deploymentType := .download
  port := 8000
  autoDeploy := false
  containerInfo := none

/-- One observable step a handler performs, in program order: a local state
write, an alert-store write, an issued HTTP request, a `window.open`, a
`setOpen` call on the dialog's open prop, or a console log. -/
inductive Effect where
  | setIsDeploying (b : Bool)
  | setDeployedUrl (v : Option String)
  | setDocsUrl (v : Option String)
  | setContainerInfo (v : Option ContainerResponseData)
  | setErrorData (n : Notification)
  | setSuccessData (n : Notification)
  | httpPost (url : String) (port : Nat) (auto_deploy : Bool)
  | windowOpen (url : String)
  | setOpen (b : Bool)
  | setOpenDeployModal (b : Bool)
  | consoleLog (msg : String)
deriving DecidableEq, Repr

/-- The dedicated container-runtime-unavailable notification, used by both
the resolved-with-Docker-message path and the rejected-with-Docker-detail
path of `handleContainerize`. -/
def dockerNotAvailableNotification : Notification where
  title := "Docker not available"
  list := ["Docker is not installed or not running. Please install Docker to use containerization features."]

/-- JS `a || b || dflt` over the optional strings
`error?.response?.data?.detail` and `error?.message` (empty strings are
falsy). -/
def firstTruthy (a b : Option String) (dflt : String) : String :=
  if jsTruthy a then jsNullStr a
  else if jsTruthy b then jsNullStr b
  else dflt

/-- `DeployButton.handleDeployClick` (deploy-button.tsx): validates the flow
id read from the flows-manager store (`currentFlow?.id`), emitting an error
notification when it is absent or empty, and otherwise opening the deploy
modal. -/
def handleDeployClick (flowId : Option String) : List Effect :=
  if jsTruthy flowId then
    [.setOpenDeployModal true]
  else
    [.setErrorData ⟨"Cannot deploy flow", ["No flow is currently selected"]⟩]

/-- `FlowToolbarOptions.handleDeployClick` (the toolbar's direct deploy
button): logs and opens the deploy modal unconditionally — it performs no
flow-id validation at all. -/
def toolbarHandleDeployClick : List Effect :=
  [.consoleLog "Deploy button clicked directly", .setOpenDeployModal true]

/-- `DeployModal.handleDownloadApp`: guard on `!flowId`, then
`setIsDeploying(true)`, `console.log`, `window.open` on the deploy URL, two
fixed display strings, a success alert, and the `finally` clearing of
`isDeploying`.  The function is `async` but contains no `await`: it never
reads any HTTP response. -/
def handleDownloadApp (flowId : String) : List Effect :=
  if flowId = "" then
    [.setErrorData ⟨"Cannot deploy flow", ["Flow ID is not valid"]⟩]
  else
    [.setIsDeploying true,
     .consoleLog ("Downloading app from: /flows/" ++ flowId ++ "/deploy"),
     .windowOpen ("/api/v1/flows/" ++ flowId ++ "/deploy"),
     .setDeployedUrl (some "FastAPI app download initiated"),
     .setDocsUrl (some "See README.md in the downloaded zip file"),
     .setSuccessData ⟨"Flow deployed successfully", []⟩,
     .setIsDeploying false]

/-- The continuation of `DeployModal.handleContainerize` after the awaited
`api.post` settles.  `autoDeploy` is the value captured by the closure at the
render that created the handler.  Every path ends with the `finally`
`setIsDeploying(false)`. -/
def containerizeCont (autoDeploy : Bool) (o : ContainerizeOutcome) : List Effect :=
  match o with
  | .success none =>
      [.setSuccessData ⟨"Flow containerized successfully", []⟩,
       .setIsDeploying false]
  | .success (some d) =>
      .setContainerInfo (some d) ::
      (if jsIncludesOpt d.message "Docker is not available" then
        [.setErrorData dockerNotAvailableNotification,
         .setOpen false,
         .setIsDeploying false]
      else
        [.setDeployedUrl
          (match d.container_info with
           | some ci =>
             if jsTruthy ci.api_url then ci.api_url
             else some ("Docker image: " ++ jsUndefStr d.image_name)
           | none => some ("Docker image: " ++ jsUndefStr d.image_name)),
         .setDocsUrl
          (if autoDeploy then
            some (jsUndefStr (d.container_info.bind ContainerInfoData.api_url) ++ "/docs")
           else none),
         .setSuccessData ⟨"Flow containerized successfully", []⟩,
         .setIsDeploying false])
  | .failure detail message =>
      .consoleLog "Error containerizing flow:" ::
      (if jsIncludesOpt detail "Docker" then
        [.setErrorData dockerNotAvailableNotification]
      else
        [.setErrorData ⟨"Failed to containerize flow",
                        [firstTruthy detail message "Unknown error occurred"]⟩]) ++
      [.setIsDeploying false]

/-- The effects `DeployModal.handleContainerize` performs before suspending
on the awaited `api.post` (guard already passed): set the in-flight flag,
log, and issue the request with `{port, auto_deploy}` read from state. -/
def containerizeRequestEffects (flowId : String) (s : ModalState) : List Effect :=
  [.setIsDeploying true,
   .consoleLog ("Containerizing flow using: /flows/" ++ flowId ++ "/containerize"),
   .httpPost ("/flows/" ++ flowId ++ "/containerize") s.port s.autoDeploy]

/-- `DeployModal.handleContainerize`, whole run: guard on `!flowId`, the
pre-await effects, then the continuation applied to the settled outcome. -/
def handleContainerize (flowId : String) (s : ModalState) (o : ContainerizeOutcome) :
    List Effect :=
  if flowId = "" then
    [.setErrorData ⟨"Cannot containerize flow", ["Flow ID is not valid"]⟩]
  else
    containerizeRequestEffects flowId s ++ containerizeCont s.autoDeploy o

/-- `DeployModal.handleDeploy`: dispatch on the selected deployment type. -/
def handleDeploy (flowId : String) (s : ModalState) (o : ContainerizeOutcome) :
    List Effect :=
  match s.deploymentType with
  | .download => handleDownloadApp flowId
  | .container => handleContainerize flowId s o

/-- World state: the modal's local state, the dialog's open prop, the shared
alert store (accumulated error and success notifications), and the requests
the browser was asked to issue (`api.post` and `window.open`). -/
structure World where
  modal : ModalState
  dialogOpen : Bool
  errorAlerts : List Notification
  successAlerts : List Notification
  requests : List Effect
deriving DecidableEq, Repr

/-- The world as it stands right after a trigger opened the dialog. -/
def initWorld : World where
  modal := initialModalState
  dialogOpen := true
  errorAlerts := []
  successAlerts := []
  requests := []

/-- Apply one effect to the world.  React `useState` setters on a mounted
component always land; nothing here consults `dialogOpen`, mirroring the
absence of any guard in the source. -/
def applyEffect (w : World) : Effect → World
  | .setIsDeploying b => { w with modal := { w.modal with isDeploying := b } }
  | .setDeployedUrl v => { w with modal := { w.modal with deployedUrl := v } }
  | .setDocsUrl v => { w with modal := { w.modal with docsUrl := v } }
  | .setContainerInfo v => { w with modal := { w.modal with containerInfo := v } }
  | .setErrorData n => { w with errorAlerts := w.errorAlerts ++ [n] }
  | .setSuccessData n => { w with successAlerts := w.successAlerts ++ [n] }
  | .httpPost url p a => { w with requests := w.requests ++ [.httpPost url p a] }
  | .windowOpen url => { w with requests := w.requests ++ [.windowOpen url] }
  | .setOpen b => { w with dialogOpen := b }
  | .setOpenDeployModal b => { w with dialogOpen := b }
  | .consoleLog _ => w

/-- Run a handler's effect list against the world, in order. -/
def runEffects (w : World) (es : List Effect) : World :=
  es.foldl applyEffect w

/-- Effects that issue an HTTP request (the axios post and the `window.open`
navigation). -/
def isRequestEffect : Effect → Bool
  | .httpPost _ _ _ => true
  | .windowOpen _ => true
  | _ => false

/-- Effects that write an error notification to the alert store. -/
def isErrorEffect : Effect → Bool
  | .setErrorData _ => true
  | _ => false

/-- Effects that write a success notification to the alert store. -/
def isSuccessEffect : Effect → Bool
  | .setSuccessData _ => true
  | _ => false

/-- The sequence of values written to the `isDeploying` flag by an effect
list, in order. -/
def setDeployingWrites (es : List Effect) : List Bool :=
  es.filterMap fun e =>
    match e with
    | .setIsDeploying b => some b
    | _ => none

/-- The `pythonCode` template of `DeployModal`, rendered from the current
state (`deployedUrl` is `string | null`; JS interpolates `null` as "null"). -/
def pythonCode (s : ModalState) : String :=
  "\nimport requests\n\n# Replace with your deployed API URL\nAPI_URL = \""
  ++ jsNullStr s.deployedUrl
  ++ "/run\"\n\ndef query_flow(input_value, input_type=\"text\"):\n    response = requests.post(\n        API_URL,\n        json=\x7b\n            \"input\": input_value,\n            \"input_type\": input_type,\n            \"tweaks\": \x7b\x7d\n        \x7d\n    )\n    return response.json()\n\n# Example usage\nresult = query_flow(\"What is machine learning?\")\nprint(result)\n"

/-- The `javascriptCode` template of `DeployModal`. -/
def javascriptCode (s : ModalState) : String :=
  "\n// Replace with your deployed API URL\nconst API_URL = \""
  ++ jsNullStr s.deployedUrl
  ++ "/run\";\n\nasync function queryFlow(inputValue, inputType = \"text\") \x7b\n  const response = await fetch(API_URL, \x7b\n    method: \x27POST\x27,\n    headers: \x7b\n      \x27Content-Type\x27: \x27application/json\x27,\n    \x7d,\n    body: JSON.stringify(\x7b\n      input: inputValue,\n      input_type: inputType,\n      tweaks: \x7b\x7d\n    \x7d)\n  \x7d);\n  \n  return await response.json();\n\x7d\n\n// Example usage\nqueryFlow(\"What is machine learning?\")\n  .then(result => console.log(result))\n  .catch(error => console.error(\x27Error:\x27, error));\n"

/-- The `curlCode` template of `DeployModal`. -/
def curlCode (s : ModalState) : String :=
  "\ncurl -X POST \""
  ++ jsNullStr s.deployedUrl
  ++ "/run\" \\\n  -H \"Content-Type: application/json\" \\\n  -d \x27\x7b\n    \"input\": \"What is machine learning?\",\n    \"input_type\": \"text\",\n    \"tweaks\": \x7b\x7d\n  \x7d\x27\n"

/-- The `dockerRunCommand` value of `DeployModal`: rendered only when
`containerInfo` is set, from the `port` state and the response's
`image_name`. -/
def dockerRunCommand (s : ModalState) : String :=
  match s.containerInfo with
  | some ci =>
    "\ndocker run -d -p " ++ toString s.port ++ ":8000 --name "
      ++ jsUndefStr ci.image_name ++ "-container " ++ jsUndefStr ci.image_name ++ "\n"
  | none => ""

/-- The `docker run` line of the generated deployment script. -/
def dockerRunLine (imageName : String) (port : Nat) : String :=
  "docker run -d -p " ++ toString port ++ ":8000 --name "
    ++ imageName ++ "-container " ++ imageName

/-- The (commented-out) `docker tag` line of the generated deployment
script; it is parameterized by the image name only. -/
def dockerTagLine (imageName : String) : String :=
  "# docker tag " ++ imageName ++ " yourusername/" ++ imageName ++ ":latest"

/-- Literal chunk of the deployment-script template before the first
`${imageName}` interpolation. -/
def scriptChunkA : String :=
  "#!/bin/bash\n# Langflow Docker Deployment Script\n# Generated automatically for "

/-- Literal chunk between the first `${imageName}` and the `docker pull`
line's `${imageName}`. -/
def scriptChunkB : String :=
  "\n\n# Check if Docker is installed\nif ! command -v docker &> /dev/null; then\n    echo \"Docker is not installed. Please install Docker first.\"\n    exit 1\nfi\n\n# Check if Docker is running\nif ! docker info &> /dev/null; then\n    echo \"Docker is not running. Please start Docker first.\"\n    exit 1\nfi\n\n# Pull the image if it exists in Docker Hub (uncomment and modify)\n# docker pull yourusername/"

/-- Literal chunk between the `docker pull` line and the `docker run` line. -/
def scriptChunkC : String :=
  ":latest\n\n# Run the container\necho \"Starting container...\"\n"

/-- Literal chunk between the `docker run` line and the first `${port}` of
the status block. -/
def scriptChunkD : String :=
  "\n\n# Check if the container is running\nif [ $? -eq 0 ]; then\n    echo \"Container started successfully!\"\n    echo \"API is available at: http://localhost:"

/-- Literal chunk between the two `${port}` interpolations of the status
block. -/
def scriptChunkE : String :=
  "\"\n    echo \"API documentation: http://localhost:"

/-- Literal chunk between the second `${port}` and the `docker tag` line. -/
def scriptChunkF : String :=
  "/docs\"\nelse\n    echo \"Failed to start container. Check Docker logs for more information.\"\n    exit 1\nfi\n\n# Optional: Push to Docker Hub (uncomment and modify)\n# echo \"Pushing image to Docker Hub...\"\n"

/-- Literal chunk between the `docker tag` line and the `docker push`
line's `${imageName}`. -/
def scriptChunkG : String :=
  "\n# docker push yourusername/"

/-- Trailing literal chunk of the deployment-script template. -/
def scriptChunkH : String :=
  ":latest\n\necho \"Deployment complete!\"\n"

/-- `generateDeploymentScript(imageName, port)` of `DeployModal`: the
template literal, written as the concatenation of its literal chunks and
interpolation points, in source order. -/
def generateDeploymentScript (imageName : String) (port : Nat) : String :=
  scriptChunkA ++ imageName ++ scriptChunkB ++ imageName ++ scriptChunkC
    ++ dockerRunLine imageName port
    ++ scriptChunkD ++ toString port ++ scriptChunkE ++ toString port ++ scriptChunkF
    ++ dockerTagLine imageName
    ++ scriptChunkG ++ imageName ++ scriptChunkH

/-- Split a string into its lines (separator '\n'), kernel-friendly. -/
def splitLinesAux : List Char → List Char → List String
  | [], acc => [String.mk acc.reverse]
  | c :: cs, acc =>
    if c = '\n' then String.mk acc.reverse :: splitLinesAux cs []
    else splitLinesAux cs (c :: acc)

/-- The lines of a string. -/
def splitLines (s : String) : List String :=
  splitLinesAux s.toList []

/-- The `disabled` attribute of the modal's submit button
(`disabled={isDeploying}`). -/
def deployButtonDisabled (s : ModalState) : Bool :=
  s.isDeploying

/-- The submit button's label
(`isDeploying ? "Deploying..." : type == "download" ? "Download App" : "Build Container"`). -/
def deployButtonLabel (s : ModalState) : String :=
  if s.isDeploying then "Deploying..."
  else
    match s.deploymentType with
    | .download => "Download App"
    | .container => "Build Container"

/-- Whether the dialog renders the result view
(`!deployedUrl ? <form> : <result>`). -/
def showsResultView (s : ModalState) : Bool :=
  jsTruthy s.deployedUrl

/-- The URL text displayed in the result view (`<code>{deployedUrl}</code>`). -/
def displayedUrl (s : ModalState) : Option String :=
  s.deployedUrl

/-- Whether the docs link is rendered (`{docsUrl && <a href={docsUrl}>}`). -/
def showsDocsLink (s : ModalState) : Bool :=
  jsTruthy s.docsUrl

/-- Whether the "Run Container" command block is rendered: the result view
with `containerInfo` set and `containerInfo.container_info` absent. -/
def showsRunCommand (s : ModalState) : Bool :=
  jsTruthy s.deployedUrl &&
    (match s.containerInfo with
     | some d => d.container_info.isNone
     | none => false)

/-- Closing the dialog: the only open-state change is the parent's boolean
prop (`onOpenChange={setOpen}`); the `DeployModal` component stays mounted
and no effect hook watches `open`, so its `useState` values are untouched. -/
def closeDialog (w : World) : World :=
  applyEffect w (.setOpen false)

/-- Reopening the dialog (a trigger calling `setOpenDeployModal(true)`
again): again only the open prop changes; the source contains no reset of
the modal's local state on reopen. -/
def reopenDialog (w : World) : World :=
  { w with dialogOpen := true }

/-! ## Helper lemmas about substring containment -/

theorem charsPrefix_self_append (m b : List Char) : charsPrefix m (m ++ b) = true := by
  induction m with
  | nil => simp [charsPrefix]
  | cons a as ih => simp [charsPrefix, ih]

theorem charsContain_append (a m b : List Char) : charsContain (a ++ m ++ b) m = true := by
  induction a with
  | nil =>
    cases m with
    | nil => cases b <;> simp [charsContain, charsPrefix]
    | cons x xs =>
      simp only [charsContain, List.nil_append, List.cons_append, Bool.or_eq_true]
      exact Or.inl (by simpa using charsPrefix_self_append (x :: xs) b)
  | cons x xs ih =>
    simp only [charsContain, List.cons_append, Bool.or_eq_true]
    exact Or.inr (by simpa [List.append_assoc] using ih)

theorem jsIncludes_of_eq (s pre m post : String) (h : s = pre ++ m ++ post) :
    jsIncludes s m = true := by
  subst h
  show charsContain (pre ++ m ++ post).data m.data = true
  rw [String.data_append, String.data_append]
  exact charsContain_append _ _ _

/-! ## Concrete scenario definitions used by the claim theorems -/

/-- World after a download-mode submission with flow id "abc123"
(`handleDeploy` from the initial state dispatches to `handleDownloadApp`;
the outcome argument is irrelevant because the download path never reads a
response). -/
def c2FinalWorld : World :=
  runEffects initWorld (handleDeploy "abc123" initialModalState (.success none))

/-- Containerize response `{image_name: "flow-abc"}` with no message and no
`container_info`. -/
def imageOnlyResponse : ContainerResponseData where
  image_name := some "flow-abc"
  message := none
  container_info := none

/-- Modal state at a container-mode submission with the default port and
auto-deploy values. -/
def c4SubmitState : ModalState :=
  { initialModalState with deploymentType := .container }

/-- C4 scenario: the user closes the dialog while the containerize request
is in flight (pre-await effects applied, then the close). -/
def c4WorldAtClose : World :=
  closeDialog (runEffects initWorld (containerizeRequestEffects "abc123" c4SubmitState))

/-- C4 scenario: the late response then arrives and the continuation of
`handleContainerize` runs against the closed dialog. -/
def c4WorldAfterLateResponse : World :=
  runEffects c4WorldAtClose (containerizeCont c4SubmitState.autoDeploy (.success (some imageOnlyResponse)))

/-- Modal state for C5: the user chose container mode, port 9090 and
auto-deploy before submitting. -/
def c5SubmitState : ModalState :=
  { initialModalState with deploymentType := .container, port := 9090, autoDeploy := true }

/-- Containerize response for C5: the container was built and started. -/
def c5ResponseData : ContainerResponseData where
  image_name := some "flow-abc"
  message := none
  container_info := some ⟨some "http://localhost:9090", some "flow-abc-container"⟩

/-- World after the successful C5 submission (a Succeeded terminal state). -/
def c5WorldAfterSubmit : World :=
  runEffects { initWorld with modal := c5SubmitState }
    (handleContainerize "abc123" c5SubmitState (.success (some c5ResponseData)))

/-- World after closing and then reopening the dialog in the C5 scenario. -/
def c5WorldReopened : World :=
  reopenDialog (closeDialog c5WorldAfterSubmit)

/-- Containerize response for C6: resolved successfully with a message that
contains "Docker" but not the phrase "Docker is not available". -/
def c6ResponseData : ContainerResponseData where
  image_name := some "flow-abc"
  message := some "Image built with Docker BuildKit"
  container_info := none

/-- Effect trace of the C6 scenario submission. -/
def c6Trace : List Effect :=
  handleContainerize "abc123" c4SubmitState (.success (some c6ResponseData))

/-- Modal state for C7: container mode, port 9090, auto-deploy off. -/
def c7SubmitState : ModalState :=
  { initialModalState with deploymentType := .container, port := 9090, autoDeploy := false }

/-- World after the C7 submission: response `{image_name: "flow-abc"}`
with no `container_info`. -/
def c7FinalWorld : World :=
  runEffects { initWorld with modal := c7SubmitState }
    (handleContainerize "abc123" c7SubmitState (.success (some imageOnlyResponse)))

/-! ## Claim theorems -/

/-- Claim C1, counterexample: the toolbar's direct deploy button
(`FlowToolbarOptions.handleDeployClick`) is a deploy trigger, and activating
it with the flow identity absent writes no error notification to the alert
store (it just logs and opens the dialog), contradicting the claim that
every such activation produces an error notification.  (It does issue no
request, so only the notification half fails.) -/
theorem c1_counterexample :
    toolbarHandleDeployClick.any isErrorEffect = false ∧
    toolbarHandleDeployClick.any isRequestEffect = false ∧
    toolbarHandleDeployClick =
      [.consoleLog "Deploy button clicked directly", .setOpenDeployModal true] := by
  decide

/-- Claim C1, amended: for the standalone `DeployButton` trigger, activation
with an absent or empty flow identity issues no request and writes exactly
the "Cannot deploy flow" error notification; every submission of the deploy
dialog with an empty flow identity issues no request and writes an error
notification; the toolbar's direct deploy button issues no request on
activation (but performs no validation and writes no notification). -/
theorem c1_amended (fid : Option String) (s : ModalState) (o : ContainerizeOutcome)
    (h : jsTruthy fid = false) :
    handleDeployClick fid =
      [.setErrorData ⟨"Cannot deploy flow", ["No flow is currently selected"]⟩] ∧
    (handleDeployClick fid).any isRequestEffect = false ∧
    (handleDeploy "" s o).any isErrorEffect = true ∧
    (handleDeploy "" s o).any isRequestEffect = false ∧
    toolbarHandleDeployClick.any isRequestEffect = false := by
  refine ⟨by simp [handleDeployClick, h], by simp [handleDeployClick, h, isRequestEffect], ?_, ?_, by decide⟩
  · cases hd : s.deploymentType <;>
      simp [handleDeploy, hd, handleDownloadApp, handleContainerize, isErrorEffect]
  · cases hd : s.deploymentType <;>
      simp [handleDeploy, hd, handleDownloadApp, handleContainerize, isRequestEffect]

/-- Claim C1 witness: the amended theorem applied at the absent flow
identity with the initial modal state. -/
theorem c1_witness :
    jsTruthy none = false ∧
    (handleDeployClick none =
      [.setErrorData ⟨"Cannot deploy flow", ["No flow is currently selected"]⟩] ∧
    (handleDeployClick none).any isRequestEffect = false ∧
    (handleDeploy "" initialModalState (.success none)).any isErrorEffect = true ∧
    (handleDeploy "" initialModalState (.success none)).any isRequestEffect = false ∧
    toolbarHandleDeployClick.any isRequestEffect = false) :=
  ⟨by decide, c1_amended none initialModalState (.success none) (by decide)⟩

/-- Claim C2, counterexample: a download-mode submission with flow identity
"abc123" never parses any response — whatever JSON the backend returns, the
dialog displays the fixed text "FastAPI app download initiated", not
"https://x/y", and no code sample contains "https://x/y/run". -/
theorem c2_counterexample :
    displayedUrl c2FinalWorld.modal = some "FastAPI app download initiated" ∧
    ¬ displayedUrl c2FinalWorld.modal = some "https://x/y" ∧
    jsIncludes (pythonCode c2FinalWorld.modal) "https://x/y/run" = false ∧
    jsIncludes (javascriptCode c2FinalWorld.modal) "https://x/y/run" = false ∧
    jsIncludes (curlCode c2FinalWorld.modal) "https://x/y/run" = false := by
  decide

/-- Claim C2, amended: a download-mode submission with flow identity
"abc123" opens `/api/v1/flows/abc123/deploy` in a new tab without reading
any response; the dialog then displays the URL text "FastAPI app download
initiated", the docs text "See README.md in the downloaded zip file", a
success notification is written, and each of the three generated code
samples contains the literal substring "FastAPI app download initiated/run". -/
theorem c2_amended :
    Effect.windowOpen "/api/v1/flows/abc123/deploy" ∈
      handleDeploy "abc123" initialModalState (.success none) ∧
    displayedUrl c2FinalWorld.modal = some "FastAPI app download initiated" ∧
    c2FinalWorld.modal.docsUrl = some "See README.md in the downloaded zip file" ∧
    c2FinalWorld.successAlerts = [⟨"Flow deployed successfully", []⟩] ∧
    jsIncludes (pythonCode c2FinalWorld.modal) "FastAPI app download initiated/run" = true ∧
    jsIncludes (javascriptCode c2FinalWorld.modal) "FastAPI app download initiated/run" = true ∧
    jsIncludes (curlCode c2FinalWorld.modal) "FastAPI app download initiated/run" = true := by
  decide

/-- Claim C3, counterexample: for image name "flow-abc" and configured port
9090, the generated script's only `docker tag` line is
"# docker tag flow-abc yourusername/flow-abc:latest" — it contains the
image name but not the port, so the claim that both appear in the
`docker tag` line is false. -/
theorem c3_counterexample :
    (splitLines (generateDeploymentScript "flow-abc" 9090)).filter
        (fun l => jsIncludes l "docker tag") =
      ["# docker tag flow-abc yourusername/flow-abc:latest"] ∧
    jsIncludes "# docker tag flow-abc yourusername/flow-abc:latest" "9090" = false ∧
    jsIncludes "# docker tag flow-abc yourusername/flow-abc:latest" "flow-abc" = true := by
  decide

/-- Claim C3, amended: for every image name I and configured port P, the
generated deployment script contains its `docker run` line, which contains
both I and P; it also contains its (commented-out) `docker tag` line, which
contains I but is parameterized by the image name only — the port does not
occur in it. -/
theorem c3_amended (I : String) (P : Nat) :
    jsIncludes (generateDeploymentScript I P) (dockerRunLine I P) = true ∧
    jsIncludes (dockerRunLine I P) I = true ∧
    jsIncludes (dockerRunLine I P) (toString P) = true ∧
    jsIncludes (generateDeploymentScript I P) (dockerTagLine I) = true ∧
    jsIncludes (dockerTagLine I) I = true ∧
    dockerTagLine I = "# docker tag " ++ I ++ " yourusername/" ++ I ++ ":latest" := by
  refine ⟨?_, ?_, ?_, ?_, ?_, rfl⟩
  · exact jsIncludes_of_eq _
      (scriptChunkA ++ I ++ scriptChunkB ++ I ++ scriptChunkC)
      (dockerRunLine I P)
      (scriptChunkD ++ toString P ++ scriptChunkE ++ toString P ++ scriptChunkF
        ++ dockerTagLine I ++ scriptChunkG ++ I ++ scriptChunkH)
      (by simp only [generateDeploymentScript, String.append_assoc])
  · exact jsIncludes_of_eq _
      ("docker run -d -p " ++ toString P ++ ":8000 --name ")
      I
      ("-container " ++ I)
      (by simp only [dockerRunLine, String.append_assoc])
  · exact jsIncludes_of_eq _
      "docker run -d -p "
      (toString P)
      (":8000 --name " ++ I ++ "-container " ++ I)
      (by simp only [dockerRunLine, String.append_assoc])
  · exact jsIncludes_of_eq _
      (scriptChunkA ++ I ++ scriptChunkB ++ I ++ scriptChunkC
        ++ dockerRunLine I P
        ++ scriptChunkD ++ toString P ++ scriptChunkE ++ toString P ++ scriptChunkF)
      (dockerTagLine I)
      (scriptChunkG ++ I ++ scriptChunkH)
      (by simp only [generateDeploymentScript, String.append_assoc])
  · exact jsIncludes_of_eq _
      "# docker tag "
      I
      (" yourusername/" ++ I ++ ":latest")
      (by simp only [dockerTagLine, String.append_assoc])

/-- Claim C4, code divergence at the failing input: the dialog is closed
while a containerize request for flow "abc123" is in flight.  The request is
indeed not cancelled (it is still outstanding at close), but when the
response `{image_name: "flow-abc"}` arrives after close it is NOT
discarded: the continuation, which never consults the open flag, sets
`containerInfo`, `deployedUrl`, `docsUrl` and `isDeploying` on the closed
dialog's state. -/
theorem c4_late_response_mutates_closed_dialog :
    c4WorldAtClose.dialogOpen = false ∧
    c4WorldAtClose.requests = [.httpPost "/flows/abc123/containerize" 8000 false] ∧
    c4WorldAtClose.modal.containerInfo = none ∧
    c4WorldAtClose.modal.deployedUrl = none ∧
    c4WorldAfterLateResponse.dialogOpen = false ∧
    c4WorldAfterLateResponse.modal.containerInfo = some imageOnlyResponse ∧
    c4WorldAfterLateResponse.modal.deployedUrl = some "Docker image: flow-abc" ∧
    c4WorldAfterLateResponse.modal.isDeploying = false := by
  decide

/-- Claim C5, counterexample: the user sets container mode, port 9090 and
auto-deploy, submits successfully (a Succeeded terminal state), closes the
dialog and reopens it — every field still holds its pre-close value: mode
is still "container" (not "download"), port is still 9090 (not 8000),
auto-deploy is still true (not false), and deployedUrl/docsUrl/containerInfo
still hold the result instead of being cleared. -/
theorem c5_counterexample :
    c5WorldAfterSubmit.successAlerts = [⟨"Flow containerized successfully", []⟩] ∧
    c5WorldReopened.dialogOpen = true ∧
    c5WorldReopened.modal.deploymentType = .container ∧
    c5WorldReopened.modal.port = 9090 ∧
    c5WorldReopened.modal.autoDeploy = true ∧
    c5WorldReopened.modal.deployedUrl = some "http://localhost:9090" ∧
    c5WorldReopened.modal.docsUrl = some "http://localhost:9090/docs" ∧
    c5WorldReopened.modal.containerInfo = some c5ResponseData := by
  decide

/-- Claim C5, amended: reopening the dialog after any state performs no
reset at all — the `DeployModal` component stays mounted across close and
reopen, no code watches the open prop, so the deployment mode, port,
auto-deploy flag and the held result (deployedUrl, docsUrl, containerInfo)
all retain the values they had at close; only the open flag changes. -/
theorem c5_amended (w : World) :
    (reopenDialog (closeDialog w)).modal = w.modal ∧
    (reopenDialog (closeDialog w)).dialogOpen = true ∧
    (closeDialog w).modal = w.modal := by
  refine ⟨rfl, rfl, rfl⟩

/-- Claim C6, counterexample: a containerize call that resolves with
`{image_name: "flow-abc", message: "Image built with Docker BuildKit"}` has
a message containing the substring "Docker", yet the dialog writes no error
notification at all — the dedicated container-runtime-unavailable message is
reserved for messages containing the full phrase "Docker is not available"
(resolved path) or details containing "Docker" (rejected path); this
outcome gets the generic success handling instead. -/
theorem c6_counterexample :
    jsIncludesOpt c6ResponseData.message "Docker" = true ∧
    c6Trace.any isErrorEffect = false ∧
    Effect.setErrorData dockerNotAvailableNotification ∉ c6Trace ∧
    Effect.setSuccessData ⟨"Flow containerized successfully", []⟩ ∈ c6Trace := by
  decide

/-- Claim C6, amended: the dedicated container-runtime-unavailable
notification is produced in exactly these cases — when the request rejects
with a detail containing "Docker" (and then it is the only error written,
not the generic failure), and when the request resolves with a message
containing the full phrase "Docker is not available"; a resolved message
containing merely "Docker" does not qualify. -/
theorem c6_amended (flowId : String) (s : ModalState) (detail message : Option String)
    (d : ContainerResponseData)
    (h1 : ¬ flowId = "")
    (h2 : jsIncludesOpt detail "Docker" = true)
    (h3 : jsIncludesOpt d.message "Docker is not available" = true) :
    handleContainerize flowId s (.failure detail message) =
      containerizeRequestEffects flowId s ++
        [.consoleLog "Error containerizing flow:",
         .setErrorData dockerNotAvailableNotification,
         .setIsDeploying false] ∧
    handleContainerize flowId s (.success (some d)) =
      containerizeRequestEffects flowId s ++
        [.setContainerInfo (some d),
         .setErrorData dockerNotAvailableNotification,
         .setOpen false,
         .setIsDeploying false] := by
  constructor
  · simp [handleContainerize, h1, containerizeCont, h2]
  · simp [handleContainerize, h1, containerizeCont, h3]

/-- Claim C6 witness: the amended theorem applied at flow "abc123", a
rejected outcome with detail "Docker is not available", and a resolved
outcome whose message is "Error: Docker is not available on this system". -/
theorem c6_witness :
    (¬ "abc123" = "" ∧
     jsIncludesOpt (some "Docker is not available") "Docker" = true ∧
     jsIncludesOpt (ContainerResponseData.mk (some "flow-abc")
        (some "Error: Docker is not available on this system") none).message
        "Docker is not available" = true) ∧
    (handleContainerize "abc123" c4SubmitState
        (.failure (some "Docker is not available") none) =
      containerizeRequestEffects "abc123" c4SubmitState ++
        [.consoleLog "Error containerizing flow:",
         .setErrorData dockerNotAvailableNotification,
         .setIsDeploying false] ∧
     handleContainerize "abc123" c4SubmitState
        (.success (some (ContainerResponseData.mk (some "flow-abc")
          (some "Error: Docker is not available on this system") none))) =
      containerizeRequestEffects "abc123" c4SubmitState ++
        [.setContainerInfo (some (ContainerResponseData.mk (some "flow-abc")
          (some "Error: Docker is not available on this system") none)),
         .setErrorData dockerNotAvailableNotification,
         .setOpen false,
         .setIsDeploying false]) :=
  ⟨⟨by decide, by decide, by decide⟩,
   c6_amended "abc123" c4SubmitState (some "Docker is not available") none
     (ContainerResponseData.mk (some "flow-abc")
       (some "Error: Docker is not available on this system") none)
     (by decide) (by decide) (by decide)⟩

/-- Claim C7, confirmed: a container-mode submission with port 9090 and
auto-deploy false whose response is `{image_name: "flow-abc"}` with no
`container_info` renders the "Run Container" block with exactly the command
`docker run -d -p 9090:8000 --name flow-abc-container flow-abc`, shows no
docs link, and the displayed URL slot holds the placeholder text
"Docker image: flow-abc", which is not a reachable URL (it contains no
"http"). -/
theorem c7_run_command_and_no_live_url :
    showsRunCommand c7FinalWorld.modal = true ∧
    dockerRunCommand c7FinalWorld.modal =
      "\ndocker run -d -p 9090:8000 --name flow-abc-container flow-abc\n" ∧
    jsIncludes (dockerRunCommand c7FinalWorld.modal)
      "docker run -d -p 9090:8000 --name flow-abc-container flow-abc" = true ∧
    c7FinalWorld.modal.docsUrl = none ∧
    showsDocsLink c7FinalWorld.modal = false ∧
    displayedUrl c7FinalWorld.modal = some "Docker image: flow-abc" ∧
    jsIncludes "Docker image: flow-abc" "http" = false := by
  decide

/-- Claim C8, confirmed: the submit button's `disabled` attribute is exactly
the `isDeploying` flag; a containerize submission writes `true` to the flag
exactly once before issuing the request (the request is the last pre-await
effect), and the continuation writes the flag exactly once — `false`, via
the `finally` — whatever the outcome (resolved without data, resolved with
data, resolved with the Docker message, rejected with either error shape);
a download submission likewise writes `true` then `false` exactly once
each.  So the flag is set for the whole in-flight window and cleared
exactly once at settle. -/
theorem c8_inflight_discipline (flowId : String) (s : ModalState) (o : ContainerizeOutcome)
    (h : ¬ flowId = "") :
    deployButtonDisabled s = s.isDeploying ∧
    handleContainerize flowId s o =
      containerizeRequestEffects flowId s ++ containerizeCont s.autoDeploy o ∧
    setDeployingWrites (containerizeRequestEffects flowId s) = [true] ∧
    (containerizeRequestEffects flowId s).getLast? =
      some (.httpPost ("/flows/" ++ flowId ++ "/containerize") s.port s.autoDeploy) ∧
    setDeployingWrites (containerizeCont s.autoDeploy o) = [false] ∧
    setDeployingWrites (handleDownloadApp flowId) = [true, false] ∧
    setDeployingWrites (handleContainerize flowId s o) = [true, false] := by
  have hsplit : handleContainerize flowId s o =
      containerizeRequestEffects flowId s ++ containerizeCont s.autoDeploy o := by
    simp [handleContainerize, h]
  have hreq : setDeployingWrites (containerizeRequestEffects flowId s) = [true] := by
    simp [containerizeRequestEffects, setDeployingWrites, List.filterMap]
  have hcont : setDeployingWrites (containerizeCont s.autoDeploy o) = [false] := by
    cases o with
    | success data =>
      cases data with
      | none => simp [containerizeCont, setDeployingWrites, List.filterMap]
      | some d =>
        simp only [containerizeCont]
        split <;> simp [setDeployingWrites, List.filterMap]
    | failure detail message =>
      simp only [containerizeCont]
      split <;> simp [setDeployingWrites, List.filterMap]
  refine ⟨rfl, hsplit, hreq, by simp [containerizeRequestEffects], hcont, ?_, ?_⟩
  · simp [handleDownloadApp, h, setDeployingWrites, List.filterMap]
  · rw [hsplit]
    show (containerizeRequestEffects flowId s ++
      containerizeCont s.autoDeploy o).filterMap _ = [true, false]
    rw [List.filterMap_append]
    show setDeployingWrites (containerizeRequestEffects flowId s) ++
      setDeployingWrites (containerizeCont s.autoDeploy o) = [true, false]
    rw [hreq, hcont]
    rfl

/-- Claim C8 witness: the theorem applied at flow "abc123", the
container-mode default state, and a rejected outcome. -/
theorem c8_witness :
    (¬ "abc123" = "") ∧
    (deployButtonDisabled c4SubmitState = c4SubmitState.isDeploying ∧
     handleContainerize "abc123" c4SubmitState (.failure none none) =
       containerizeRequestEffects "abc123" c4SubmitState ++
         containerizeCont c4SubmitState.autoDeploy (.failure none none) ∧
     setDeployingWrites (containerizeRequestEffects "abc123" c4SubmitState) = [true] ∧
     (containerizeRequestEffects "abc123" c4SubmitState).getLast? =
       some (.httpPost ("/flows/" ++ "abc123" ++ "/containerize")
         c4SubmitState.port c4SubmitState.autoDeploy) ∧
     setDeployingWrites (containerizeCont c4SubmitState.autoDeploy (.failure none none)) =
       [false] ∧
     setDeployingWrites (handleDownloadApp "abc123") = [true, false] ∧
     setDeployingWrites (handleContainerize "abc123" c4SubmitState (.failure none none)) =
       [true, false]) :=
  ⟨by decide, c8_inflight_discipline "abc123" c4SubmitState (.failure none none) (by decide)⟩

/-- Claim C9, confirmed: when a containerize response resolves successfully
but its message contains "Docker is not available", the handler's trace is
exactly: flag up, log, request, `setContainerInfo(response.data)` — the
data is stored BEFORE the message check — then the dedicated error
notification (no success notification anywhere in the trace), `setOpen
(false)` closing the dialog, and the `finally` flag clear; so after the run
the response data is retained in `containerInfo`. -/
theorem c9_docker_message_path (flowId : String) (s : ModalState)
    (d : ContainerResponseData) (w : World)
    (h1 : ¬ flowId = "") (h2 : jsIncludesOpt d.message "Docker is not available" = true) :
    handleContainerize flowId s (.success (some d)) =
      [.setIsDeploying true,
       .consoleLog ("Containerizing flow using: /flows/" ++ flowId ++ "/containerize"),
       .httpPost ("/flows/" ++ flowId ++ "/containerize") s.port s.autoDeploy,
       .setContainerInfo (some d),
       .setErrorData dockerNotAvailableNotification,
       .setOpen false,
       .setIsDeploying false] ∧
    (handleContainerize flowId s (.success (some d))).any isSuccessEffect = false ∧
    (runEffects w (handleContainerize flowId s (.success (some d)))).modal.containerInfo =
      some d ∧
    (runEffects w (handleContainerize flowId s (.success (some d)))).dialogOpen = false := by
  have htr : handleContainerize flowId s (.success (some d)) =
      [.setIsDeploying true,
       .consoleLog ("Containerizing flow using: /flows/" ++ flowId ++ "/containerize"),
       .httpPost ("/flows/" ++ flowId ++ "/containerize") s.port s.autoDeploy,
       .setContainerInfo (some d),
       .setErrorData dockerNotAvailableNotification,
       .setOpen false,
       .setIsDeploying false] := by
    simp [handleContainerize, h1, containerizeRequestEffects, containerizeCont, h2]
  refine ⟨htr, ?_, ?_, ?_⟩ <;>
    rw [htr] <;> simp [isSuccessEffect, runEffects, List.foldl, applyEffect]

/-- Claim C9 witness: the theorem applied at flow "abc123", the
container-mode default state, the response
`{image_name: "flow-abc", message: "Docker is not available"}`, and the
initial world. -/
theorem c9_witness :
    ((¬ "abc123" = "") ∧
     jsIncludesOpt (ContainerResponseData.mk (some "flow-abc")
       (some "Docker is not available") none).message "Docker is not available" = true) ∧
    (handleContainerize "abc123" c4SubmitState
        (.success (some (ContainerResponseData.mk (some "flow-abc")
          (some "Docker is not available") none))) =
      [.setIsDeploying true,
       .consoleLog ("Containerizing flow using: /flows/" ++ "abc123" ++ "/containerize"),
       .httpPost ("/flows/" ++ "abc123" ++ "/containerize")
         c4SubmitState.port c4SubmitState.autoDeploy,
       .setContainerInfo (some (ContainerResponseData.mk (some "flow-abc")
         (some "Docker is not available") none)),
       .setErrorData dockerNotAvailableNotification,
       .setOpen false,
       .setIsDeploying false] ∧
     (handleContainerize "abc123" c4SubmitState
        (.success (some (ContainerResponseData.mk (some "flow-abc")
          (some "Docker is not available") none)))).any isSuccessEffect = false ∧
     (runEffects initWorld (handleContainerize "abc123" c4SubmitState
        (.success (some (ContainerResponseData.mk (some "flow-abc")
          (some "Docker is not available") none))))).modal.containerInfo =
       some (ContainerResponseData.mk (some "flow-abc")
         (some "Docker is not available") none) ∧
     (runEffects initWorld (handleContainerize "abc123" c4SubmitState
        (.success (some (ContainerResponseData.mk (some "flow-abc")
          (some "Docker is not available") none))))).dialogOpen = false) :=
  ⟨⟨by decide, by decide⟩,
   c9_docker_message_path "abc123" c4SubmitState
     (ContainerResponseData.mk (some "flow-abc") (some "Docker is not available") none)
     initWorld (by decide) (by decide)⟩

/-- Claim C10, confirmed: an auto-deploy container submission whose
response takes the normal success path but carries no
`container_info.api_url` (either no `container_info` at all or one without
`api_url`) writes `docsUrl := "undefined/docs"`: the docs link is built as
`${response.data.container_info?.api_url}/docs`, and JS renders the
undefined optional chain as the text "undefined". -/
theorem c10_docs_url_undefined (flowId : String) (s : ModalState)
    (d : ContainerResponseData) (w : World)
    (h1 : ¬ flowId = "") (h2 : s.autoDeploy = true)
    (h3 : d.container_info.bind ContainerInfoData.api_url = none)
    (h4 : jsIncludesOpt d.message "Docker is not available" = false) :
    Effect.setDocsUrl (some "undefined/docs") ∈
      handleContainerize flowId s (.success (some d)) ∧
    (runEffects w (handleContainerize flowId s (.success (some d)))).modal.docsUrl =
      some "undefined/docs" := by
  have hdocs : (if s.autoDeploy then
      some (jsUndefStr (d.container_info.bind ContainerInfoData.api_url) ++ "/docs")
    else none) = some "undefined/docs" := by
    rw [h2, h3]
    simp [jsUndefStr]
  have htr : handleContainerize flowId s (.success (some d)) =
      [.setIsDeploying true,
       .consoleLog ("Containerizing flow using: /flows/" ++ flowId ++ "/containerize"),
       .httpPost ("/flows/" ++ flowId ++ "/containerize") s.port s.autoDeploy,
       .setContainerInfo (some d),
       .setDeployedUrl
         (match d.container_info with
          | some ci =>
            if jsTruthy ci.api_url then ci.api_url
            else some ("Docker image: " ++ jsUndefStr d.image_name)
          | none => some ("Docker image: " ++ jsUndefStr d.image_name)),
       .setDocsUrl (some "undefined/docs"),
       .setSuccessData ⟨"Flow containerized successfully", []⟩,
       .setIsDeploying false] := by
    rw [show handleContainerize flowId s (.success (some d)) =
        containerizeRequestEffects flowId s ++ containerizeCont s.autoDeploy (.success (some d))
      from by simp [handleContainerize, h1]]
    simp [containerizeRequestEffects, containerizeCont, h4, hdocs]
  constructor
  · rw [htr]
    simp
  · rw [htr]
    simp [runEffects, List.foldl, applyEffect]

/-- Claim C10 witness: the theorem applied at flow "abc123", the C5 state
(container mode, auto-deploy on), the response `{image_name: "flow-abc"}`
with no `container_info`, and the initial world. -/
theorem c10_witness :
    ((¬ "abc123" = "") ∧ c5SubmitState.autoDeploy = true ∧
     imageOnlyResponse.container_info.bind ContainerInfoData.api_url = none ∧
     jsIncludesOpt imageOnlyResponse.message "Docker is not available" = false) ∧
    (Effect.setDocsUrl (some "undefined/docs") ∈
       handleContainerize "abc123" c5SubmitState (.success (some imageOnlyResponse)) ∧
     (runEffects initWorld (handleContainerize "abc123" c5SubmitState
        (.success (some imageOnlyResponse)))).modal.docsUrl = some "undefined/docs") :=
  ⟨⟨by decide, by decide, by decide, by decide⟩,
   c10_docs_url_undefined "abc123" c5SubmitState imageOnlyResponse initWorld
     (by decide) (by decide) (by decide) (by decide)⟩

end Langflow
